import Mathlib

/-!
Verification of the song-library core (orchestration service + persistence-query
layer) against its natural-language specification.

The Go source is shallowly embedded:
* `Song`, `SongFilter`, `SongInfo` mirror `internal/models` and `service.SongInfo`
  (`releaseDate` is carried as an opaque string, as the service layer treats it;
  timestamps are an abstract integer clock).
* Errors are an inductive `GoError`: `base` models `errors.New` / `fmt.Errorf`
  without `%w`, `wrap` models `errors.Wrap` / `fmt.Errorf "...: %w"`.
* The Postgres store behind `songRepository` is a table state `DB`; the SQL of
  each method is given its relational meaning (ILIKE = case-insensitive
  LIKE-pattern matching, where `%` and `_` in the pattern are wildcards and
  backslash escapes them; ORDER BY id DESC = stable sort, LIMIT/OFFSET =
  take/drop, NOW() = the clock).  `broken` injects a driver failure into every query, the
  way a connectivity loss would.  `limit`/`offset` are modelled as `Nat`,
  following the data model's pagination cursor (non-negative integers; Postgres
  rejects negative LIMIT/OFFSET outright).
* Go `int` arithmetic in the lyrics pagination is modelled by `Int`; a Go slice
  expression `verses[start:end]` is `goSlice`, returning `none` exactly when Go
  would panic with an out-of-range slice.
-/

structure Song where
  id : Int
  groupName : String
  title : String
  releaseDate : String
  link : String
  text : String
  createdAt : Int
  updatedAt : Int
deriving Repr, DecidableEq

structure SongFilter where
  groupName : String
  title : String
deriving Repr, DecidableEq

/-- The enrichment provider's response (`service.SongInfo`). -/
structure SongInfo where
  releaseDate : String
  text : String
  link : String
deriving Repr, DecidableEq

/-- Go error values as the service observes them: a bare message, or a message
wrapping an inner error (`errors.Wrap` / `fmt.Errorf` with `%w`). -/
inductive GoError where
  | base : String → GoError
  | wrap : String → GoError → GoError
deriving Repr, DecidableEq

/-- The innermost error of a wrap chain: the original failure. -/
def GoError.rootCause : GoError → GoError
  | .base m => .base m
  | .wrap _ e => e.rootCause

/-- An error that carries at least one added message around an inner error. -/
def GoError.isWrapped : GoError → Prop
  | .base _ => False
  | .wrap _ _ => True

/- ### String helpers: case-insensitive substring (SQL `ILIKE '%p%'`) -/

def lowerChars (s : String) : List Char := s.data.map Char.toLower

def isPrefixL : List Char → List Char → Bool
  | [], _ => true
  | _ :: _, [] => false
  | a :: as, b :: bs => a == b && isPrefixL as bs

def hasSubstr : List Char → List Char → Bool
  | [], pat => pat.isEmpty
  | c :: rest, pat => isPrefixL pat (c :: rest) || hasSubstr rest pat

/-- The spec's listing predicate on one field: `pat` occurs in `field` as a
literal substring, case-insensitively.  Spec-side only: the SQL's ILIKE is
`ilikeMatch` below, which additionally gives `%`, `_` and `\` their
wildcard/escape readings. -/
def ilikeContains (field pat : String) : Bool :=
  hasSubstr (lowerChars field) (lowerChars pat)

/- ### SQL LIKE/ILIKE pattern matching -/

/-- A character with no LIKE metacharacter role: not `%`, `_` or `\`. -/
def noMeta (c : Char) : Bool := (c != '%') && (c != '_') && (c != '\\')

/-- `g` accepts some suffix of the list (the zero-or-more-characters step of a
`%` wildcard). -/
def anySuffix (g : List Char → Bool) : List Char → Bool
  | [] => g []
  | d :: s' => g (d :: s') || anySuffix g s'

/-- Postgres LIKE matching of a whole string against a pattern: `%` matches
any sequence of characters, `_` any single character, backslash escapes the
following character, anything else matches itself; comparisons are case-folded
(ILIKE).  A pattern ending in a bare escape raises an error in Postgres; it is
modelled as matching nothing, and never arises from the repository's
`'%' || v || '%'` patterns, whose last character is `%`. -/
def likeMatch : List Char → List Char → Bool
  | [] => fun s => s.isEmpty
  | c :: ps =>
    if c = '%' then anySuffix (likeMatch ps)
    else if c = '_' then fun s =>
      match s with
      | [] => false
      | _ :: s' => likeMatch ps s'
    else if c = '\\' then
      match ps with
      | e :: ps' => fun s =>
        match s with
        | [] => false
        | d :: s' => (e.toLower == d.toLower) && likeMatch ps' s'
      | [] => fun _ => false
    else fun s =>
      match s with
      | [] => false
      | d :: s' => (c.toLower == d.toLower) && likeMatch ps s'

/-- The pattern `GetAll` binds for a filter value `v`: `'%' || v || '%'`. -/
def ilikePattern (v : String) : List Char := '%' :: (v.data ++ ['%'])

/-- Meaning of `field ILIKE '%' || v || '%'` with `v` the raw filter value:
LIKE-pattern matching, so metacharacters inside `v` keep their wildcard or
escape role. -/
def ilikeMatch (field v : String) : Bool := likeMatch (ilikePattern v) field.data

/- ### Go strconv.Atoi (as used by the transport decoders) -/

def allDigits (l : List Char) : Bool := l.all Char.isDigit

def digitsVal (l : List Char) : Nat :=
  l.foldl (fun acc c => acc * 10 + (c.toNat - 48)) 0

/-- Model of `strconv.Atoi`: optional sign then decimal digits; `none` on the
empty string or any non-digit (the decoders discard the error, leaving 0).
Overflow of 64-bit int is not modelled; no claim exercises it. -/
def goAtoi (s : String) : Option Int :=
  match s.data with
  | [] => none
  | '+' :: rest => if !rest.isEmpty && allDigits rest then some (digitsVal rest : Int) else none
  | '-' :: rest => if !rest.isEmpty && allDigits rest then some (-(digitsVal rest : Int)) else none
  | l => if allDigits l then some (digitsVal l : Int) else none

/- ### The durable store -/

/-- State of the Postgres `songs` table plus the id sequence and clock.
`broken = some m` makes every query fail with driver error `m`. -/
structure DB where
  table : List Song
  nextId : Int
  now : Int
  broken : Option String
deriving Repr, DecidableEq

/-- `ORDER BY id DESC`. -/
def byIdDesc (a b : Song) : Prop := b.id ≤ a.id

instance : DecidableRel byIdDesc := fun a b => inferInstanceAs (Decidable (b.id ≤ a.id))

instance : IsTotal Song byIdDesc := ⟨fun a b => le_total b.id a.id⟩

instance : IsTrans Song byIdDesc := ⟨fun _ _ _ hab hbc => le_trans hbc hab⟩

namespace SongRepository

/-- `songRepository.Create`: INSERT with store-assigned id and
`created_at = updated_at = NOW()`, RETURNING id. -/
def Create (db : DB) (song : Song) : Except GoError (Int × DB) :=
  match db.broken with
  | some m => .error (.wrap "failed to insert new song" (.base m))
  | none =>
    let row : Song :=
      { song with id := db.nextId, createdAt := db.now, updatedAt := db.now }
    .ok (db.nextId, { db with table := row :: db.table, nextId := db.nextId + 1 })

/-- `songRepository.GetByID`: SELECT ... WHERE id = $1 LIMIT 1; `sql.ErrNoRows`
becomes `(nil, nil)`, i.e. `ok none`. -/
def GetByID (db : DB) (id : Int) : Except GoError (Option Song) :=
  match db.broken with
  | some m => .error (.wrap "failed to get song by ID" (.base m))
  | none => .ok (db.table.find? (fun s => s.id == id))

/-- The WHERE clauses `GetAll` builds: one `ILIKE` clause per non-empty filter
field, in field order. -/
def whereClauses (filter : SongFilter) : List (Song → Bool) :=
  (if filter.groupName ≠ "" then [fun s => ilikeMatch s.groupName filter.groupName] else [])
    ++ (if filter.title ≠ "" then [fun s => ilikeMatch s.title filter.title] else [])

/-- `songRepository.GetAll`: conjunction of the built clauses, ORDER BY id DESC,
then LIMIT/OFFSET. -/
def GetAll (db : DB) (filter : SongFilter) (limit offset : Nat) :
    Except GoError (List Song) :=
  match db.broken with
  | some m => .error (.wrap "failed to get songs" (.base m))
  | none =>
    let matched := db.table.filter (fun s => (whereClauses filter).all (fun c => c s))
    .ok (((matched.insertionSort byIdDesc).drop offset).take limit)

/-- `songRepository.Update`: UPDATE of the five mutable columns plus
`updated_at = NOW()` WHERE id = $6; `id` and `created_at` are untouched, and a
missing row is not an error (rows affected are not checked). -/
def Update (db : DB) (song : Song) : Except GoError DB :=
  match db.broken with
  | some m => .error (.wrap "failed to update song" (.base m))
  | none =>
    .ok { db with
          table := db.table.map (fun r =>
            if r.id == song.id then
              { r with groupName := song.groupName, title := song.title,
                       releaseDate := song.releaseDate, link := song.link,
                       text := song.text, updatedAt := db.now }
            else r) }

/-- `songRepository.Delete`: DELETE WHERE id = $1; deleting an absent row is
not an error. -/
def Delete (db : DB) (id : Int) : Except GoError DB :=
  match db.broken with
  | some m => .error (.wrap "failed to delete song" (.base m))
  | none => .ok { db with table := db.table.filter (fun s => s.id != id) }

end SongRepository

/- ### Lyrics splitting and pagination (service layer helpers) -/

/-- `SplitByDoubleNewline` as implemented in `song_service.go`: despite its
name and its comment, the body is `return []string{}` — an empty slice for
every input. -/
def SplitByDoubleNewline (_text : String) : List String := []

/-- `splitByVerse` delegates to `SplitByDoubleNewline`. -/
def splitByVerse (text : String) : List String := SplitByDoubleNewline text

/-- A Go slice expression `xs[s:e]`: defined (as its take/drop meaning) exactly
when `0 ≤ s ≤ e ≤ len xs`, and `none` (a runtime panic) otherwise. -/
def goSlice (xs : List String) (s e : Int) : Option (List String) :=
  if 0 ≤ s ∧ s ≤ e ∧ e ≤ (xs.length : Int) then
    some ((xs.drop s.toNat).take (e - s).toNat)
  else none

/-- Lines 111–123 of `GetSongLyrics`: window arithmetic over the verse list.
`none` is the Go panic outcome of the final slice. -/
def lyricsPaginate (verses : List String) (page pageSize : Int) :
    Option (List String × Int) :=
  let total : Int := verses.length
  let start0 := (page - 1) * pageSize
  let start := if start0 < 0 then 0 else start0
  let stop0 := start + pageSize
  let stop := if stop0 > total then total else stop0
  if start ≥ total then some ([], total)
  else (goSlice verses start stop).map (fun l => (l, total))

/- ### The orchestration service, composed with the store -/

/-- `SongService.CreateSong`: enrichment first (the provider's response is the
`client` argument), fail-fast on its error, otherwise assemble the song from
the inputs plus the enrichment fields and insert it. -/
def CreateSong (db : DB) (client : String → String → Except GoError SongInfo)
    (groupName songTitle : String) : Except GoError Int × DB :=
  match client groupName songTitle with
  | .error e => (.error (.wrap "failed to fetch external data" e), db)
  | .ok info =>
    let song : Song :=
      { id := 0, groupName := groupName, title := songTitle,
        releaseDate := info.releaseDate, link := info.link, text := info.text,
        createdAt := 0, updatedAt := 0 }
    match SongRepository.Create db song with
    | .error e => (.error (.wrap "failed to create new song" e), db)
    | .ok (newID, db') => (.ok newID, db')

/-- `SongService.GetSong`. -/
def GetSong (db : DB) (songID : Int) : Except GoError Song :=
  match SongRepository.GetByID db songID with
  | .error e => .error (.wrap ("failed to retrieve song with ID=" ++ toString songID) e)
  | .ok none => .error (.base "song not found")
  | .ok (some s) => .ok s

/-- `SongService.ListSongs`: pass-through to the repository with an extra wrap
on failure. -/
def ListSongs (db : DB) (filter : SongFilter) (limit offset : Nat) :
    Except GoError (List Song) :=
  match SongRepository.GetAll db filter limit offset with
  | .error e => .error (.wrap "failed to list songs" e)
  | .ok songs => .ok songs

/-- `SongService.GetSongLyrics`.  Note line 102 of the source: a lookup failure
is returned verbatim, with no message added by the service.  The outer `Option`
is the panic outcome of the verse slice. -/
def GetSongLyrics (db : DB) (id page pageSize : Int) :
    Option (Except GoError (List String × Int)) :=
  match SongRepository.GetByID db id with
  | .error e => some (.error e)
  | .ok none => some (.error (.base "song not found"))
  | .ok (some song) =>
    (lyricsPaginate (splitByVerse song.text) page pageSize).map .ok

/-- The field-by-field merge `UpdateSong` performs on the incoming record:
each empty mutable field is replaced by the existing record's value. -/
def mergeSong (song existing : Song) : Song :=
  { song with
    groupName := if song.groupName = "" then existing.groupName else song.groupName,
    title := if song.title = "" then existing.title else song.title,
    releaseDate := if song.releaseDate = "" then existing.releaseDate else song.releaseDate,
    link := if song.link = "" then existing.link else song.link,
    text := if song.text = "" then existing.text else song.text }

/-- `SongService.UpdateSong`: fetch, not-found check, merge-on-empty, then the
store update with the merged record. -/
def UpdateSong (db : DB) (song : Song) : Except GoError Unit × DB :=
  match SongRepository.GetByID db song.id with
  | .error e => (.error (.wrap "failed to fetch existing song" e), db)
  | .ok none => (.error (.base "song not found"), db)
  | .ok (some existing) =>
    match SongRepository.Update db (mergeSong song existing) with
    | .error e => (.error (.wrap "failed to update song" e), db)
    | .ok db' => (.ok (), db')

/-- `SongService.DeleteSong`: fetch, not-found check, then the store delete. -/
def DeleteSong (db : DB) (songID : Int) : Except GoError Unit × DB :=
  match SongRepository.GetByID db songID with
  | .error e => (.error (.wrap "failed to fetch existing song" e), db)
  | .ok none => (.error (.base "song not found"), db)
  | .ok (some _) =>
    match SongRepository.Delete db songID with
    | .error e => (.error (.wrap "failed to delete song" e), db)
    | .ok db' => (.ok (), db')

/- ### Transport decoders (query parameters; a missing parameter is "") -/

/-- `decodeListSongsRequest`: `strconv.Atoi` with the error discarded, so a
missing or unparsable `limit`/`offset` decodes to 0. -/
def decodeListSongsRequest (group title limitStr offsetStr : String) :
    SongFilter × Int × Int :=
  (⟨group, title⟩, (goAtoi limitStr).getD 0, (goAtoi offsetStr).getD 0)

/-- `decodeGetLyricsRequest`, page/pageSize part: Atoi with error discarded,
then both values clamped up to a minimum of 1 (never rejected). -/
def decodeGetLyricsParams (pageStr pageSizeStr : String) : Int × Int :=
  let page := (goAtoi pageStr).getD 0
  let page := if page < 1 then 1 else page
  let pageSize := (goAtoi pageSizeStr).getD 0
  let pageSize := if pageSize < 1 then 1 else pageSize
  (page, pageSize)

/- ### Spec-side definitions (for refinement comparisons only) -/

/-- The listing predicate as the spec words it: case-insensitive substring
match per present field, absent/empty field imposing no constraint, conjoined. -/
def matchesFilterSpec (filter : SongFilter) (s : Song) : Bool :=
  (filter.groupName == "" || ilikeContains s.groupName filter.groupName)
    && (filter.title == "" || ilikeContains s.title filter.title)

/-- The lyrics window as the spec words it: the half-open window
`[(page-1)*pageSize, (page-1)*pageSize + pageSize)` clipped to `[0, total]`,
paired with the total verse count. -/
def windowSpec (verses : List String) (page pageSize : Int) : List String × Int :=
  let total : Int := verses.length
  let lo := max ((page - 1) * pageSize) 0
  let hi := min ((page - 1) * pageSize + pageSize) total
  ((verses.drop lo.toNat).take (hi - lo).toNat, total)

/- ### Sample data shared by concrete instantiations -/

def sampleSong : Song :=
  { id := 1, groupName := "Pink Floyd", title := "Time",
    releaseDate := "1973-03-01", link := "http://example.com/time",
    text := "verse one\n\nverse two\n\nverse three",
    createdAt := 5, updatedAt := 5 }

def sampleDB : DB := { table := [sampleSong], nextId := 2, now := 9, broken := none }

def emptyDB : DB := { table := [], nextId := 1, now := 0, broken := none }

/- ### Claim theorems -/

/-- C1 (code bug): the spec says `GetLyrics` splits the stored text into verses
at blank-line delimiters, so that for the text
`"verse one\n\nverse two\n\nverse three"` page 1 of size 1 is
`(["verse one"], 3)`.  The implementation's `SplitByDoubleNewline` returns an
empty slice for every input, so `GetSongLyrics` answers `([], 0)` on this very
song, contradicting the spec, the helper's own comment and the route's swagger
documentation. -/
theorem C1_lyrics_split_stubbed_to_empty :
    GetSongLyrics sampleDB 1 1 1 = some (.ok ([], 0)) ∧
    GetSongLyrics sampleDB 1 1 1 ≠ some (.ok (["verse one"], 3)) := by
  refine ⟨rfl, ?_⟩
  intro h
  rw [show GetSongLyrics sampleDB 1 1 1 = some (.ok ([], 0)) from rfl] at h
  simp at h

/-- C2: if the enrichment call fails, `CreateSong` returns the wrapped
dependency error and the store state it hands back is exactly the input state:
the persistence create is never reached, and the row count is unchanged. -/
theorem C2_create_fail_fast_no_persist (db : DB)
    (client : String → String → Except GoError SongInfo)
    (groupName songTitle : String) (e : GoError)
    (h : client groupName songTitle = .error e) :
    CreateSong db client groupName songTitle
        = (.error (.wrap "failed to fetch external data" e), db) ∧
    ((CreateSong db client groupName songTitle).2).table.length = db.table.length := by
  simp [CreateSong, h]

theorem C2_create_fail_fast_no_persist_witness :
    CreateSong emptyDB (fun _ _ => .error (.base "dial tcp: timeout")) "Muse" "Uprising"
        = (.error (.wrap "failed to fetch external data" (.base "dial tcp: timeout")), emptyDB) ∧
    ((CreateSong emptyDB (fun _ _ => .error (.base "dial tcp: timeout")) "Muse" "Uprising").2).table.length
        = emptyDB.table.length :=
  C2_create_fail_fast_no_persist emptyDB (fun _ _ => .error (.base "dial tcp: timeout"))
    "Muse" "Uprising" (.base "dial tcp: timeout") rfl

/-- C6: on an id with no record, `UpdateSong` and `DeleteSong` both stop after
the fetch with the not-found error, and the store they hand back is the input
store: the update/delete operation is never invoked and the table (hence its
row count) is unchanged. -/
theorem C6_update_delete_absent_id_no_mutation (db : DB) (song : Song) (songID : Int)
    (hu : SongRepository.GetByID db song.id = .ok none)
    (hd : SongRepository.GetByID db songID = .ok none) :
    UpdateSong db song = (.error (.base "song not found"), db) ∧
    DeleteSong db songID = (.error (.base "song not found"), db) ∧
    (UpdateSong db song).2.table = db.table ∧
    (DeleteSong db songID).2.table = db.table := by
  simp [UpdateSong, DeleteSong, hu, hd]

theorem C6_update_delete_absent_id_no_mutation_witness :
    UpdateSong sampleDB { sampleSong with id := 42 } = (.error (.base "song not found"), sampleDB) ∧
    DeleteSong sampleDB 42 = (.error (.base "song not found"), sampleDB) ∧
    (UpdateSong sampleDB { sampleSong with id := 42 }).2.table = sampleDB.table ∧
    (DeleteSong sampleDB 42).2.table = sampleDB.table :=
  C6_update_delete_absent_id_no_mutation sampleDB { sampleSong with id := 42 } 42 rfl rfl

/-- C10: a limit of 0 selects zero rows (it is not "no limit"), and the list
decoder turns a missing or unparsable `limit` query parameter into 0, so such
a request lists no songs. -/
theorem C10_zero_limit_lists_nothing (db : DB) (filter : SongFilter) (offset : Nat)
    (group title limitStr offsetStr : String)
    (hdb : db.broken = none) (hbad : goAtoi limitStr = none) :
    ListSongs db filter 0 offset = .ok [] ∧
    (decodeListSongsRequest group title limitStr offsetStr).2.1 = 0 := by
  simp [ListSongs, SongRepository.GetAll, hdb, decodeListSongsRequest, hbad]

theorem C10_zero_limit_lists_nothing_witness :
    ListSongs sampleDB ⟨"", ""⟩ 0 0 = .ok [] ∧
    (decodeListSongsRequest "" "" "" "").2.1 = 0 :=
  C10_zero_limit_lists_nothing sampleDB ⟨"", ""⟩ 0 "" "" "" "" rfl rfl

/-- Finding by id commutes with mapping an id-preserving function over the
table. -/
theorem find?_id_map (l : List Song) (i : Int) (f : Song → Song)
    (hf : ∀ r, (f r).id = r.id) :
    (l.map f).find? (fun s => s.id == i) = (l.find? (fun s => s.id == i)).map f := by
  induction l with
  | nil => rfl
  | cons a l ih =>
    simp only [List.map_cons, List.find?]
    rw [show ((f a).id == i) = (a.id == i) by rw [hf]]
    cases h : (a.id == i) with
    | true => simp
    | false => simpa using ih

/-- C8: a successful `CreateSong` returns an id under which `GetSong` finds a
record whose group and title are the inputs, whose release date, link and text
are the enrichment response, and whose `createdAt` equals its `updatedAt`. -/
theorem C8_create_then_get_roundtrip (db : DB)
    (client : String → String → Except GoError SongInfo)
    (groupName songTitle : String) (info : SongInfo)
    (hc : client groupName songTitle = .ok info) (hdb : db.broken = none) :
    ∃ newID db', CreateSong db client groupName songTitle = (.ok newID, db') ∧
      ∃ s, GetSong db' newID = .ok s ∧
        s.groupName = groupName ∧ s.title = songTitle ∧
        s.releaseDate = info.releaseDate ∧ s.link = info.link ∧ s.text = info.text ∧
        s.createdAt = s.updatedAt := by
  have h1 : CreateSong db client groupName songTitle =
      (.ok db.nextId,
        { db with
          table := { id := db.nextId, groupName := groupName, title := songTitle,
                     releaseDate := info.releaseDate, link := info.link, text := info.text,
                     createdAt := db.now, updatedAt := db.now } :: db.table,
          nextId := db.nextId + 1 }) := by
    simp [CreateSong, hc, SongRepository.Create, hdb]
  refine ⟨db.nextId, _, h1,
    { id := db.nextId, groupName := groupName, title := songTitle,
      releaseDate := info.releaseDate, link := info.link, text := info.text,
      createdAt := db.now, updatedAt := db.now }, ?_, rfl, rfl, rfl, rfl, rfl, rfl⟩
  simp [GetSong, SongRepository.GetByID, hdb, List.find?]

theorem C8_create_then_get_roundtrip_witness :
    ∃ newID db',
      CreateSong emptyDB (fun _ _ => .ok ⟨"2006-07-16", "Ooh baby", "http://e.com"⟩)
        "Muse" "Supermassive Black Hole" = (.ok newID, db') ∧
      ∃ s, GetSong db' newID = .ok s ∧
        s.groupName = "Muse" ∧ s.title = "Supermassive Black Hole" ∧
        s.releaseDate = "2006-07-16" ∧ s.link = "http://e.com" ∧ s.text = "Ooh baby" ∧
        s.createdAt = s.updatedAt :=
  C8_create_then_get_roundtrip emptyDB (fun _ _ => .ok ⟨"2006-07-16", "Ooh baby", "http://e.com"⟩)
    "Muse" "Supermassive Black Hole" ⟨"2006-07-16", "Ooh baby", "http://e.com"⟩ rfl rfl

/-- C3: when the record exists, `UpdateSong` succeeds and the stored row
afterwards carries, in each mutable field, the incoming value when non-empty
and the existing value when empty; identity and `createdAt` are untouched and
rows with other ids survive unchanged.  In particular one non-empty incoming
field changes only that field, and all-empty incoming fields change none. -/
theorem C3_update_merge_on_empty (db : DB) (song existing : Song)
    (hfound : SongRepository.GetByID db song.id = .ok (some existing)) :
    (UpdateSong db song).1 = .ok () ∧
    (∃ updated, (UpdateSong db song).2.table.find? (fun s => s.id == song.id) = some updated ∧
      updated.groupName = (if song.groupName = "" then existing.groupName else song.groupName) ∧
      updated.title = (if song.title = "" then existing.title else song.title) ∧
      updated.releaseDate = (if song.releaseDate = "" then existing.releaseDate else song.releaseDate) ∧
      updated.link = (if song.link = "" then existing.link else song.link) ∧
      updated.text = (if song.text = "" then existing.text else song.text) ∧
      updated.id = existing.id ∧ updated.createdAt = existing.createdAt) ∧
    (∀ r ∈ db.table, r.id ≠ song.id → r ∈ (UpdateSong db song).2.table) := by
  cases hb : db.broken with
  | some m => simp [SongRepository.GetByID, hb] at hfound
  | none =>
    have hfind : db.table.find? (fun s => s.id == song.id) = some existing := by
      simpa [SongRepository.GetByID, hb] using hfound
    have hex : (existing.id == song.id) = true := by
      have h := List.find?_some hfind
      simpa using h
    have hid : (mergeSong song existing).id = song.id := rfl
    have hupd : UpdateSong db song =
        (.ok (),
          { db with table := db.table.map (fun r =>
              if r.id == (mergeSong song existing).id then
                { r with groupName := (mergeSong song existing).groupName,
                         title := (mergeSong song existing).title,
                         releaseDate := (mergeSong song existing).releaseDate,
                         link := (mergeSong song existing).link,
                         text := (mergeSong song existing).text,
                         updatedAt := db.now }
              else r) }) := by
      simp [UpdateSong, hfound, SongRepository.Update, hb]
    rw [hupd]
    refine ⟨rfl, ⟨?_, ?_, ?_⟩, ?_⟩
    · exact { existing with
        groupName := (mergeSong song existing).groupName,
        title := (mergeSong song existing).title,
        releaseDate := (mergeSong song existing).releaseDate,
        link := (mergeSong song existing).link,
        text := (mergeSong song existing).text,
        updatedAt := db.now }
    · have hex' : existing.id = song.id := by simpa using hex
      rw [find?_id_map _ _ _ (by intro r; split <;> rfl), hfind]
      simp [hid, hex']
    · exact ⟨rfl, rfl, rfl, rfl, rfl, rfl, rfl⟩
    · intro r hr hne
      have : (r.id == (mergeSong song existing).id) = false := by
        rw [hid]; exact beq_eq_false_iff_ne.mpr hne
      exact List.mem_map.mpr ⟨r, hr, by simp [this]⟩

/-- A partial update record: only `title` set, used to instantiate C3. -/
def partialUpdateSong : Song :=
  { id := 1, groupName := "", title := "Breathe",
    releaseDate := "", link := "", text := "", createdAt := 0, updatedAt := 0 }

theorem C3_update_merge_on_empty_witness :
    (UpdateSong sampleDB partialUpdateSong).1 = .ok () ∧
    (∃ updated,
      (UpdateSong sampleDB partialUpdateSong).2.table.find?
          (fun s => s.id == partialUpdateSong.id) = some updated ∧
      updated.groupName
        = (if partialUpdateSong.groupName = "" then sampleSong.groupName
           else partialUpdateSong.groupName) ∧
      updated.title
        = (if partialUpdateSong.title = "" then sampleSong.title else partialUpdateSong.title) ∧
      updated.releaseDate
        = (if partialUpdateSong.releaseDate = "" then sampleSong.releaseDate
           else partialUpdateSong.releaseDate) ∧
      updated.link
        = (if partialUpdateSong.link = "" then sampleSong.link else partialUpdateSong.link) ∧
      updated.text
        = (if partialUpdateSong.text = "" then sampleSong.text else partialUpdateSong.text) ∧
      updated.id = sampleSong.id ∧ updated.createdAt = sampleSong.createdAt) ∧
    (∀ r ∈ sampleDB.table, r.id ≠ partialUpdateSong.id →
      r ∈ (UpdateSong sampleDB partialUpdateSong).2.table) :=
  C3_update_merge_on_empty sampleDB partialUpdateSong sampleSong rfl

/-- The pagination arithmetic on an empty verse list always takes the early
out-of-range return `([], 0)`: the slice is never reached. -/
theorem lyricsPaginate_nil (page pageSize : Int) :
    lyricsPaginate [] page pageSize = some ([], 0) := by
  simp only [lyricsPaginate, List.length_nil, Int.natCast_zero]
  split_ifs with h1 h2 h3 <;> first | rfl | omega

/-- For inputs at or above the floors (page ≥ 1, pageSize ≥ 1), the code's
pagination over any verse list is exactly the spec's clipped half-open window,
and in particular never the panic outcome. -/
theorem lyricsPaginate_eq_windowSpec (verses : List String) (page pageSize : Int)
    (hp : 1 ≤ page) (hs : 1 ≤ pageSize) :
    lyricsPaginate verses page pageSize = some (windowSpec verses page pageSize) := by
  have h0 : 0 ≤ (page - 1) * pageSize := mul_nonneg (by omega) (by omega)
  simp only [lyricsPaginate, windowSpec, goSlice]
  rw [if_neg (not_lt.mpr h0), max_eq_left h0]
  have hmin : (if (page - 1) * pageSize + pageSize > (verses.length : Int)
        then (verses.length : Int) else (page - 1) * pageSize + pageSize)
      = min ((page - 1) * pageSize + pageSize) (verses.length : Int) := by
    rw [min_def]; split_ifs <;> omega
  rw [hmin]
  by_cases hst : (page - 1) * pageSize ≥ (verses.length : Int)
  · rw [if_pos hst]
    have hdrop : verses.drop ((page - 1) * pageSize).toNat = [] := by
      apply List.drop_eq_nil_of_le
      omega
    rw [hdrop]
    simp
  · rw [if_neg hst]
    have hcond : 0 ≤ (page - 1) * pageSize ∧
        (page - 1) * pageSize ≤ min ((page - 1) * pageSize + pageSize) (verses.length : Int) ∧
        min ((page - 1) * pageSize + pageSize) (verses.length : Int) ≤ (verses.length : Int) := by
      refine ⟨h0, ?_, min_le_right _ _⟩
      rw [le_min_iff]
      constructor <;> omega
    rw [if_pos hcond]
    rfl

/-- When the clipped window starts at or past the verse count, the spec window
is empty with the true total. -/
theorem windowSpec_out_of_range (verses : List String) (page pageSize : Int)
    (h0 : 0 ≤ (page - 1) * pageSize)
    (h : (page - 1) * pageSize ≥ (verses.length : Int)) :
    windowSpec verses page pageSize = ([], (verses.length : Int)) := by
  simp only [windowSpec]
  rw [max_eq_left h0, List.drop_eq_nil_of_le (by omega)]
  simp

/-- The decoded lyrics parameters respect the floors. -/
theorem decodeGetLyricsParams_ge_one (pageStr pageSizeStr : String) :
    1 ≤ (decodeGetLyricsParams pageStr pageSizeStr).1 ∧
    1 ≤ (decodeGetLyricsParams pageStr pageSizeStr).2 := by
  simp only [decodeGetLyricsParams]
  constructor <;> split_ifs <;> omega

/-- C4: the transport clamps `page` and `pageSize` up to 1 (never rejecting
them), and for a stored song the service then answers with the spec's
half-open window `[(page-1)*pageSize, (page-1)*pageSize + pageSize)` clipped
to `[0, total]`; when the window start is at or beyond the total the answer is
the empty sequence with the true total, not an error. -/
theorem C4_lyrics_clamping_and_clipped_window (db : DB) (id : Int) (song : Song)
    (pageStr pageSizeStr : String)
    (hfound : SongRepository.GetByID db id = .ok (some song)) :
    1 ≤ (decodeGetLyricsParams pageStr pageSizeStr).1 ∧
    1 ≤ (decodeGetLyricsParams pageStr pageSizeStr).2 ∧
    GetSongLyrics db id (decodeGetLyricsParams pageStr pageSizeStr).1
        (decodeGetLyricsParams pageStr pageSizeStr).2
      = some (.ok (windowSpec (splitByVerse song.text)
          (decodeGetLyricsParams pageStr pageSizeStr).1
          (decodeGetLyricsParams pageStr pageSizeStr).2)) ∧
    (((decodeGetLyricsParams pageStr pageSizeStr).1 - 1)
          * (decodeGetLyricsParams pageStr pageSizeStr).2
        ≥ ((splitByVerse song.text).length : Int) →
      GetSongLyrics db id (decodeGetLyricsParams pageStr pageSizeStr).1
          (decodeGetLyricsParams pageStr pageSizeStr).2
        = some (.ok ([], ((splitByVerse song.text).length : Int)))) := by
  obtain ⟨hp, hs⟩ := decodeGetLyricsParams_ge_one pageStr pageSizeStr
  have hlyr : GetSongLyrics db id (decodeGetLyricsParams pageStr pageSizeStr).1
      (decodeGetLyricsParams pageStr pageSizeStr).2
      = some (.ok (windowSpec (splitByVerse song.text)
          (decodeGetLyricsParams pageStr pageSizeStr).1
          (decodeGetLyricsParams pageStr pageSizeStr).2)) := by
    simp only [GetSongLyrics, hfound]
    rw [lyricsPaginate_eq_windowSpec _ _ _ hp hs]
    rfl
  refine ⟨hp, hs, hlyr, fun hout => ?_⟩
  rw [hlyr, windowSpec_out_of_range _ _ _ (mul_nonneg (by omega) (by omega)) hout]

theorem C4_lyrics_clamping_and_clipped_window_witness :
    1 ≤ (decodeGetLyricsParams "0" "-3").1 ∧
    1 ≤ (decodeGetLyricsParams "0" "-3").2 ∧
    GetSongLyrics sampleDB 1 (decodeGetLyricsParams "0" "-3").1
        (decodeGetLyricsParams "0" "-3").2
      = some (.ok (windowSpec (splitByVerse sampleSong.text)
          (decodeGetLyricsParams "0" "-3").1 (decodeGetLyricsParams "0" "-3").2)) ∧
    (((decodeGetLyricsParams "0" "-3").1 - 1) * (decodeGetLyricsParams "0" "-3").2
        ≥ ((splitByVerse sampleSong.text).length : Int) →
      GetSongLyrics sampleDB 1 (decodeGetLyricsParams "0" "-3").1
          (decodeGetLyricsParams "0" "-3").2
        = some (.ok ([], ((splitByVerse sampleSong.text).length : Int)))) :=
  C4_lyrics_clamping_and_clipped_window sampleDB 1 sampleSong "0" "-3" rfl

/-- C9: for every store state and all integer `page`/`pageSize`, including
zero and negative values, `GetSongLyrics` never reaches the panic outcome of
the verse slice: it returns an error (absent song or failed lookup) or a
normal result whose verse window lies within `[0, total]`. -/
theorem C9_lyrics_slice_never_out_of_bounds (db : DB) (id page pageSize : Int) :
    ∃ r, GetSongLyrics db id page pageSize = some r ∧
      ∀ vs total, r = .ok (vs, total) → (vs.length : Int) ≤ total ∧ 0 ≤ total := by
  cases h : SongRepository.GetByID db id with
  | error e =>
    refine ⟨.error e, by simp [GetSongLyrics, h], ?_⟩
    intro vs total ht
    simp at ht
  | ok o =>
    cases o with
    | none =>
      refine ⟨.error (.base "song not found"), by simp [GetSongLyrics, h], ?_⟩
      intro vs total ht
      simp at ht
    | some song =>
      refine ⟨.ok ([], 0), ?_, ?_⟩
      · simp only [GetSongLyrics, h]
        rw [show splitByVerse song.text = [] from rfl, lyricsPaginate_nil]
        rfl
      · intro vs total ht
        simp only [Except.ok.injEq, Prod.mk.injEq] at ht
        obtain ⟨h1, h2⟩ := ht
        subst h1; subst h2
        simp

def brokenDB : DB := { table := [], nextId := 1, now := 0, broken := some "connection refused" }

/-- C5: under a store failure every operation returns an error that wraps the
original driver failure — the root cause is preserved (nothing swallowed) and
at least one operation-identifying message is added along the chain; a
provider failure in `CreateSong` is likewise wrapped.  `GetSongLyrics` is the
one operation whose service method adds no message of its own: the error it
re-raises carries only the persistence layer's "failed to get song by ID". -/
theorem C5_failures_wrapped_not_swallowed (db : DB) (m : String)
    (client failingClient : String → String → Except GoError SongInfo)
    (info : SongInfo) (ef : GoError) (groupName songTitle : String)
    (id : Int) (filter : SongFilter) (limit offset : Nat) (song : Song)
    (page pageSize : Int)
    (hb : db.broken = some m)
    (hc : client groupName songTitle = .ok info)
    (hf : failingClient groupName songTitle = .error ef) :
    (CreateSong db client groupName songTitle).1
        = .error (.wrap "failed to create new song"
            (.wrap "failed to insert new song" (.base m))) ∧
    (CreateSong db failingClient groupName songTitle).1
        = .error (.wrap "failed to fetch external data" ef) ∧
    GetSong db id
        = .error (.wrap ("failed to retrieve song with ID=" ++ toString id)
            (.wrap "failed to get song by ID" (.base m))) ∧
    ListSongs db filter limit offset
        = .error (.wrap "failed to list songs" (.wrap "failed to get songs" (.base m))) ∧
    (UpdateSong db song).1
        = .error (.wrap "failed to fetch existing song"
            (.wrap "failed to get song by ID" (.base m))) ∧
    (DeleteSong db id).1
        = .error (.wrap "failed to fetch existing song"
            (.wrap "failed to get song by ID" (.base m))) ∧
    GetSongLyrics db id page pageSize
        = some (.error (.wrap "failed to get song by ID" (.base m))) ∧
    GoError.isWrapped (.wrap "failed to get song by ID" (.base m)) ∧
    (GoError.wrap "failed to get song by ID" (.base m)).rootCause = .base m := by
  refine ⟨?_, ?_, ?_, ?_, ?_, ?_, ?_, trivial, rfl⟩ <;>
    simp [CreateSong, GetSong, ListSongs, UpdateSong, DeleteSong, GetSongLyrics,
      SongRepository.Create, SongRepository.GetByID, SongRepository.GetAll, hb, hc, hf]

theorem C5_failures_wrapped_not_swallowed_witness :
    (CreateSong brokenDB (fun _ _ => .ok ⟨"1973-03-01", "t", "l"⟩) "Pink Floyd" "Time").1
        = .error (.wrap "failed to create new song"
            (.wrap "failed to insert new song" (.base "connection refused"))) ∧
    (CreateSong brokenDB (fun _ _ => .error (.base "503")) "Pink Floyd" "Time").1
        = .error (.wrap "failed to fetch external data" (.base "503")) ∧
    GetSong brokenDB 7
        = .error (.wrap ("failed to retrieve song with ID=" ++ toString (7 : Int))
            (.wrap "failed to get song by ID" (.base "connection refused"))) ∧
    ListSongs brokenDB ⟨"", ""⟩ 10 0
        = .error (.wrap "failed to list songs"
            (.wrap "failed to get songs" (.base "connection refused"))) ∧
    (UpdateSong brokenDB sampleSong).1
        = .error (.wrap "failed to fetch existing song"
            (.wrap "failed to get song by ID" (.base "connection refused"))) ∧
    (DeleteSong brokenDB 7).1
        = .error (.wrap "failed to fetch existing song"
            (.wrap "failed to get song by ID" (.base "connection refused"))) ∧
    GetSongLyrics brokenDB 7 1 1
        = some (.error (.wrap "failed to get song by ID" (.base "connection refused"))) ∧
    GoError.isWrapped (.wrap "failed to get song by ID" (.base "connection refused")) ∧
    (GoError.wrap "failed to get song by ID" (.base "connection refused")).rootCause
        = .base "connection refused" :=
  C5_failures_wrapped_not_swallowed brokenDB "connection refused"
    (fun _ _ => .ok ⟨"1973-03-01", "t", "l"⟩) (fun _ _ => .error (.base "503"))
    ⟨"1973-03-01", "t", "l"⟩ (.base "503") "Pink Floyd" "Time" 7 ⟨"", ""⟩ 10 0
    sampleSong 1 1 rfl rfl rfl

theorem likeMatch_percent_cons (ps s : List Char) :
    likeMatch ('%' :: ps) s = anySuffix (likeMatch ps) s := by
  rw [likeMatch.eq_def]
  rfl

theorem likeMatch_plain_nil (c : Char) (ps : List Char)
    (h1 : ¬ c = '%') (h2 : ¬ c = '_') (h3 : ¬ c = '\\') :
    likeMatch (c :: ps) [] = false := by
  rw [likeMatch.eq_def]
  dsimp only
  rw [if_neg h1, if_neg h2, if_neg h3]

theorem likeMatch_plain_cons (c : Char) (ps : List Char) (d : Char) (s' : List Char)
    (h1 : ¬ c = '%') (h2 : ¬ c = '_') (h3 : ¬ c = '\\') :
    likeMatch (c :: ps) (d :: s') = ((c.toLower == d.toLower) && likeMatch ps s') := by
  rw [likeMatch.eq_def]
  dsimp only
  rw [if_neg h1, if_neg h2, if_neg h3]

/-- The pattern consisting of a single `%` accepts every string. -/
theorem likeMatch_percent (f : List Char) : likeMatch ['%'] f = true := by
  induction f with
  | nil => rfl
  | cons d f ih =>
    rw [likeMatch_percent_cons] at ih ⊢
    simp only [anySuffix]
    simp [ih]

/-- A metacharacter-free pattern followed by `%` accepts exactly the strings it
is a case-insensitive prefix of. -/
theorem likeMatch_plain_append_percent (p : List Char) (hp : p.all noMeta = true) :
    ∀ f : List Char, likeMatch (p ++ ['%']) f
      = isPrefixL (p.map Char.toLower) (f.map Char.toLower) := by
  induction p with
  | nil =>
    intro f
    simp [likeMatch_percent, isPrefixL]
  | cons c p ih =>
    intro f
    simp only [List.all_cons, Bool.and_eq_true] at hp
    obtain ⟨hc, hp'⟩ := hp
    simp only [noMeta, Bool.and_eq_true, bne_iff_ne, ne_eq] at hc
    obtain ⟨⟨h1, h2⟩, h3⟩ := hc
    cases f with
    | nil =>
      rw [List.cons_append, likeMatch_plain_nil c _ h1 h2 h3]
      simp [isPrefixL]
    | cons d f' =>
      rw [List.cons_append, likeMatch_plain_cons c _ d f' h1 h2 h3, ih hp']
      simp [isPrefixL]

/-- For a metacharacter-free `v`, the pattern `'%' || v || '%'` accepts exactly
the strings containing `v` case-insensitively. -/
theorem likeMatch_ilike (v : List Char) (hv : v.all noMeta = true) :
    ∀ f : List Char, likeMatch ('%' :: (v ++ ['%'])) f
      = hasSubstr (f.map Char.toLower) (v.map Char.toLower) := by
  intro f
  induction f with
  | nil =>
    rw [likeMatch_percent_cons]
    simp only [anySuffix]
    rw [likeMatch_plain_append_percent v hv []]
    cases v <;> simp [isPrefixL, hasSubstr]
  | cons d f' ih =>
    rw [likeMatch_percent_cons]
    simp only [anySuffix]
    rw [← likeMatch_percent_cons, likeMatch_plain_append_percent v hv, ih]
    simp [hasSubstr]

/-- On filter values free of LIKE metacharacters, the query's ILIKE predicate
is the spec's literal case-insensitive substring predicate. -/
theorem ilikeMatch_eq_contains (v : String) (hv : v.data.all noMeta = true)
    (field : String) : ilikeMatch field v = ilikeContains field v := by
  unfold ilikeMatch ilikePattern ilikeContains lowerChars
  exact likeMatch_ilike v.data hv field.data

/-- For filter values free of LIKE metacharacters, the clause list `GetAll`
builds evaluates, as a conjunction, to the spec's substring filter
predicate. -/
theorem whereClauses_all_eq (filter : SongFilter) (s : Song)
    (hgm : filter.groupName.data.all noMeta = true)
    (htm : filter.title.data.all noMeta = true) :
    ((SongRepository.whereClauses filter).all (fun c => c s)) = matchesFilterSpec filter s := by
  by_cases hg : filter.groupName = "" <;> by_cases ht : filter.title = ""
  · simp [SongRepository.whereClauses, matchesFilterSpec, hg, ht]
  · simp [SongRepository.whereClauses, matchesFilterSpec, hg, ht,
      beq_eq_false_iff_ne.mpr ht, ilikeMatch_eq_contains filter.title htm]
  · simp [SongRepository.whereClauses, matchesFilterSpec, hg, ht,
      beq_eq_false_iff_ne.mpr hg, ilikeMatch_eq_contains filter.groupName hgm]
  · simp [SongRepository.whereClauses, matchesFilterSpec, hg, ht,
      beq_eq_false_iff_ne.mpr hg, beq_eq_false_iff_ne.mpr ht,
      ilikeMatch_eq_contains filter.groupName hgm, ilikeMatch_eq_contains filter.title htm]

/-- C7 counterexample: the claim's universal substring reading fails on
wildcard-bearing filters.  The repository interpolates the filter value into
the pattern `'%' || v || '%'`, so a filter value of `"_"` acts as a LIKE
single-character wildcard: listing returns the stored "Pink Floyd" row even
though `"_"` is not a literal (case-insensitive) substring of its group
name. -/
theorem C7_substring_claim_counterexample :
    ListSongs sampleDB ⟨"_", ""⟩ 10 0 = .ok [sampleSong] ∧
    matchesFilterSpec ⟨"_", ""⟩ sampleSong = false := by
  constructor
  · rfl
  · decide

/-- C7 (amended: restricted to filter values without LIKE metacharacters
`%`, `_`, `\`; in general the filter value is interpolated into an ILIKE
pattern, so such characters act as wildcards/escape): with the store
reachable, listing returns exactly the stored songs satisfying the
conjunction of the present case-insensitive substring predicates, ordered by
id descending, windowed by offset then limit; an empty filter lists the whole
(sorted, windowed) table, and a window beyond the result set yields the empty
sequence, not an error. -/
theorem C7_list_filters_orders_windows (db : DB) (filter : SongFilter)
    (limit offset : Nat) (hdb : db.broken = none)
    (hgm : filter.groupName.data.all noMeta = true)
    (htm : filter.title.data.all noMeta = true) :
    ∃ L, ListSongs db filter limit offset = .ok L ∧
      L = (((db.table.filter (matchesFilterSpec filter)).insertionSort byIdDesc).drop
            offset).take limit ∧
      List.Sorted byIdDesc L ∧
      (∀ s ∈ L, s ∈ db.table ∧ matchesFilterSpec filter s = true) ∧
      (filter.groupName = "" → filter.title = "" →
        L = ((db.table.insertionSort byIdDesc).drop offset).take limit) ∧
      ((db.table.filter (matchesFilterSpec filter)).length ≤ offset → L = []) := by
  have hfil : db.table.filter (fun s => (SongRepository.whereClauses filter).all (fun c => c s))
      = db.table.filter (matchesFilterSpec filter) := by
    apply List.filter_congr
    intro s _
    exact whereClauses_all_eq filter s hgm htm
  have hlist : ListSongs db filter limit offset
      = .ok ((((db.table.filter (matchesFilterSpec filter)).insertionSort byIdDesc).drop
          offset).take limit) := by
    simp [ListSongs, SongRepository.GetAll, hdb, hfil]
  have hsub : List.Sublist
      ((((db.table.filter (matchesFilterSpec filter)).insertionSort byIdDesc).drop
        offset).take limit)
      ((db.table.filter (matchesFilterSpec filter)).insertionSort byIdDesc) :=
    (List.take_sublist _ _).trans (List.drop_sublist _ _)
  refine ⟨_, hlist, rfl, ?_, ?_, ?_, ?_⟩
  · exact List.Pairwise.sublist hsub (List.sorted_insertionSort byIdDesc _)
  · intro s hsL
    have hmem : s ∈ (db.table.filter (matchesFilterSpec filter)).insertionSort byIdDesc :=
      hsub.mem hsL
    rw [List.mem_insertionSort] at hmem
    exact ⟨List.mem_of_mem_filter hmem, List.of_mem_filter hmem⟩
  · intro hg ht
    have hall : db.table.filter (matchesFilterSpec filter) = db.table :=
      List.filter_eq_self.mpr (fun a _ => by simp [matchesFilterSpec, beq_iff_eq, hg, ht])
    rw [hall]
  · intro hoff
    have hlen : ((db.table.filter (matchesFilterSpec filter)).insertionSort byIdDesc).length
        = (db.table.filter (matchesFilterSpec filter)).length :=
      (List.perm_insertionSort byIdDesc _).length_eq
    rw [List.drop_eq_nil_of_le (by rw [hlen]; exact hoff)]
    simp

theorem C7_list_filters_orders_windows_witness :
    ∃ L, ListSongs sampleDB ⟨"floyd", ""⟩ 10 0 = .ok L ∧
      L = (((sampleDB.table.filter (matchesFilterSpec ⟨"floyd", ""⟩)).insertionSort
            byIdDesc).drop 0).take 10 ∧
      List.Sorted byIdDesc L ∧
      (∀ s ∈ L, s ∈ sampleDB.table ∧ matchesFilterSpec ⟨"floyd", ""⟩ s = true) ∧
      ((⟨"floyd", ""⟩ : SongFilter).groupName = "" → (⟨"floyd", ""⟩ : SongFilter).title = "" →
        L = ((sampleDB.table.insertionSort byIdDesc).drop 0).take 10) ∧
      ((sampleDB.table.filter (matchesFilterSpec ⟨"floyd", ""⟩)).length ≤ 0 → L = []) :=
  C7_list_filters_orders_windows sampleDB ⟨"floyd", ""⟩ 10 0 rfl rfl rfl
